import Mathlib

/-!
IsKoroneDown — verification of the report/status/admin service.

Shallow embedding of the server's decision logic. The persistent store
(three SQLite tables: `reports`, `blacklisted_ips`, `settings`) is modelled
as lists; every HTTP handler becomes a pure function from the current
database state (plus its request inputs and the current wall-clock time in
milliseconds) to a response together with the successor state. Timestamp
arithmetic is done over `Int`, mirroring JavaScript number arithmetic on
`Date.now()` values (no wraparound).
-/

namespace IsKoroneDown

/-- A row of the `reports` table: `(ip TEXT, timestamp INTEGER)`.
The AUTOINCREMENT id plays no role in any handler and is omitted. -/
structure Report where
  ip : String
  timestamp : Nat
deriving Repr, DecidableEq

/-- A row of the `blacklisted_ips` table:
`(ip TEXT UNIQUE, timestamp INTEGER, reason TEXT)`. -/
structure BlacklistEntry where
  ip : String
  timestamp : Nat
  reason : String
deriving Repr, DecidableEq

/-- The database state: the three tables. The `settings` table has
`key TEXT PRIMARY KEY`, modelled as an association list. -/
structure DB where
  reports : List Report
  blacklist : List BlacklistEntry
  settings : List (String × String)
deriving Repr, DecidableEq

/-- The empty (freshly created) database. -/
def emptyDB : DB := { reports := [], blacklist := [], settings := [] }

/-- Body of the `GET /status` JSON response. -/
structure StatusResp where
  status : String
  count : Nat
  reports : List Report
  forced : Bool
deriving Repr, DecidableEq

/-- One grouped row of the admin dashboard response:
`SELECT ip, COUNT(*) as count, MAX(timestamp) as last_report ... GROUP BY ip`. -/
structure DashRow where
  ip : String
  count : Nat
  last_report : Nat
deriving Repr, DecidableEq

/-- Body of the `GET /admin/dashboard` JSON response. -/
structure DashboardData where
  reports : List DashRow
  blacklistedIPs : List BlacklistEntry
  settings : List (String × String)
deriving Repr, DecidableEq

/-- An HTTP response, as the handlers produce it:
`success` is `res.json({success:true})`, `error c m` is
`res.status(c).json({error: m})`, the other constructors carry the
endpoint-specific JSON bodies, and `file` is `res.sendFile`. -/
inductive Resp where
  | success
  | error (code : Nat) (msg : String)
  | statusBody (s : StatusResp)
  | dash (d : DashboardData)
  | file (name : String)
deriving Repr, DecidableEq

/-- JavaScript `a || b` on an optional string `a` and a string `b`:
`undefined` and the empty string are falsy. Used for
`req.headers["x-forwarded-for"] || req.socket.remoteAddress` and
`reason || 'No reason provided'`. -/
def jsOrDefault (a : Option String) (b : String) : String :=
  match a with
  | some s => if s == "" then b else s
  | none => b

/-- Client address resolution performed by the Access Gate and `/report`:
forwarded-for header if present (and truthy), else the socket peer address. -/
def resolveClientIp (xForwardedFor : Option String) (remoteAddress : String) : String :=
  jsOrDefault xForwardedFor remoteAddress

/-- The query `SELECT value FROM settings WHERE key = ?` over the association list:
`db.get` returns the first matching row or `undefined`. -/
def lookupRows (rows : List (String × String)) (key : String) : Option String :=
  (rows.find? (fun p => p.1 == key)).map (fun p => p.2)

/-- Read a setting value from the database. -/
def getSetting (db : DB) (key : String) : Option String :=
  lookupRows db.settings key

/-- The statement `UPDATE settings SET value = ? WHERE key = ?`: rewrites the value of
every row whose key matches; inserts nothing when the key is absent. -/
def updateRows (rows : List (String × String)) (key value : String) :
    List (String × String) :=
  rows.map (fun p => if p.1 == key then (p.1, value) else p)

/-- The statement `INSERT OR IGNORE INTO settings (key, value) VALUES (?, ?)`:
appends the row unless the key is already present. -/
def seedRow (rows : List (String × String)) (key value : String) :
    List (String × String) :=
  if rows.any (fun p => p.1 == key) then rows else rows ++ [(key, value)]

/-- Startup initialization: tables are created if absent (a no-op on the
list model) and the two recognized settings keys are seeded if absent:
`('maintenance_mode', 'false'), ('force_status', 'auto')`. -/
def startup (db : DB) : DB :=
  { db with settings := seedRow (seedRow db.settings "maintenance_mode" "false")
                          "force_status" "auto" }

/-- The 24-hour window in milliseconds: `24 * 60 * 60 * 1000`. -/
def windowMs : Nat := 24 * 60 * 60 * 1000

/-- The static-asset extensions of the Access Gate's regex
`/\.(png|jpg|jpeg|gif|svg|css|js|ttf|woff|woff2|ico)$/i`. -/
def staticExtensions : List String :=
  ["png", "jpg", "jpeg", "gif", "svg", "css", "js", "ttf", "woff", "woff2", "ico"]

/-- Whether the first list of characters leads the second one. -/
def leadMatches : List Char → List Char → Bool
  | [], _ => true
  | _ :: _, [] => false
  | p :: ps, c :: cs => p == c && leadMatches ps cs

/-- Whether the first list of characters ends the second one. -/
def tailMatches (sfx l : List Char) : Bool :=
  leadMatches sfx.reverse l.reverse

/-- Whether a request path matches the static-asset regex: the path ends,
case-insensitively (the regex's `i` flag, applied by ASCII-lowercasing the
path against the lowercase alternatives), in a dot followed by one of the
recognized extensions. -/
def isStaticAssetPath (p : String) : Bool :=
  staticExtensions.any (fun e => tailMatches ('.' :: e.data) (p.data.map Char.toLower))

/-- Whether a request path is an admin path: `req.path.startsWith('/admin')`. -/
def isAdminPath (p : String) : Bool :=
  leadMatches "/admin".data p.data

/-- Outcome of the Access Gate middleware: serve the maintenance page,
reject with 403 "Access denied", or pass the request downstream (`next()`).
The middleware performs no writes, which the embedding reflects in its
type: it consumes the database state and produces no successor state. -/
inductive GateResult where
  | maintenance
  | denied
  | pass
deriving Repr, DecidableEq

/-- The Access Gate middleware, translated clause by clause:
maintenance check first (skipped on admin paths and static-asset paths,
firing only when the `maintenance_mode` row exists with value `'true'`),
then the blacklist membership check (skipped on admin paths), else pass. -/
def accessGate (db : DB) (path ip : String) : GateResult :=
  let staticAsset := isStaticAssetPath path
  let maintHit :=
    if !isAdminPath path && !staticAsset then
      match getSetting db "maintenance_mode" with
      | some v => v == "true"
      | none => false
    else false
  if maintHit then GateResult.maintenance
  else
    let blacklisted := db.blacklist.any (fun b => b.ip == ip)
    if blacklisted && !isAdminPath path then GateResult.denied
    else GateResult.pass

/-- The query `SELECT 1 FROM reports WHERE ip = ? AND timestamp > ? LIMIT 1`:
does some report row for this address fall strictly inside the window? -/
def hasRecentReport (db : DB) (ip : String) (since : Int) : Bool :=
  db.reports.any (fun r => r.ip == ip && decide (since < (r.timestamp : Int)))

/-- Handler of `POST /report`: if the address already has a report row with
timestamp strictly greater than `now - 86400000`, reject with 429 and
write nothing; else append the row `{ip, now}` and respond success. -/
def postReport (db : DB) (ip : String) (now : Nat) : Resp × DB :=
  let since : Int := (now : Int) - (windowMs : Int)
  if hasRecentReport db ip since then
    (Resp.error 429 "You can only report once every 24 hours.", db)
  else
    (Resp.success, { db with reports := db.reports ++ [{ ip := ip, timestamp := now }] })

/-- The forced-status phrase: `value === 'up' ? "Korone is up" :
"Korone is probably down"`. -/
def forcedPhrase (v : String) : String :=
  if v == "up" then "Korone is up" else "Korone is probably down"

/-- The normal (auto-mode) logic of `GET /status`: fetch all report rows
with timestamp strictly inside the 24-hour window, count them, and derive
the status from the threshold `count >= 30`. -/
def statusAuto (db : DB) (now : Nat) : StatusResp :=
  let since : Int := (now : Int) - (windowMs : Int)
  let reports := db.reports.filter (fun r => decide (since < (r.timestamp : Int)))
  let count := reports.length
  { status := if 30 ≤ count then "Korone is probably down" else "Korone is up"
    count := count
    reports := reports
    forced := false }

/-- Handler of `GET /status`: if the `force_status` row exists with a value other
than `'auto'`, answer the forced response (count 0, empty report list,
`forced: true`) without consulting the report ledger; otherwise run the
normal window computation. -/
def getStatus (db : DB) (now : Nat) : StatusResp :=
  match getSetting db "force_status" with
  | some v =>
      if v != "auto" then
        { status := forcedPhrase v, count := 0, reports := [], forced := true }
      else statusAuto db now
  | none => statusAuto db now

/-- The admin session: `none` when `req.session` carries no admin marker,
`some b` when `req.session.isAdmin` is the boolean `b`. -/
def requireAuth (sess : Option Bool) : Bool :=
  match sess with
  | some b => b
  | none => false

/-- The 401 response produced by `requireAuth` when the session check fails. -/
def authErrorResp : Resp := Resp.error 401 "Authentication required"

/-- Keep the first occurrence of each element, in order: the distinct
grouping keys that SQL `GROUP BY ip` produces over the scanned rows. -/
def dedupKeepFirst (l : List String) : List String :=
  l.foldl (fun acc x => if acc.contains x then acc else acc ++ [x]) []

/-- Insert a dashboard row into a list kept in descending `count` order. -/
def insertByCountDesc (x : DashRow) : List DashRow → List DashRow
  | [] => [x]
  | y :: t => if y.count < x.count then x :: y :: t else y :: insertByCountDesc x t

/-- The clause `ORDER BY count DESC` over the grouped dashboard rows. -/
def sortByCountDesc (l : List DashRow) : List DashRow :=
  l.foldr insertByCountDesc []

/-- Insert a blacklist entry into a list kept in descending timestamp order. -/
def insertByTimestampDesc (x : BlacklistEntry) :
    List BlacklistEntry → List BlacklistEntry
  | [] => [x]
  | y :: t => if y.timestamp < x.timestamp then x :: y :: t
              else y :: insertByTimestampDesc x t

/-- The clause `ORDER BY timestamp DESC` over the blacklist table. -/
def sortByTimestampDesc (l : List BlacklistEntry) : List BlacklistEntry :=
  l.foldr insertByTimestampDesc []

/-- Handler of `GET /admin/dashboard` (behind `requireAuth`): reports of the last 24
hours grouped by address with per-address count and latest timestamp,
ordered by count descending; the blacklist ordered by timestamp
descending; all settings rows. A pure read: the state is unchanged. -/
def adminDashboard (db : DB) (sess : Option Bool) (now : Nat) : Resp × DB :=
  if requireAuth sess then
    let since : Int := (now : Int) - (windowMs : Int)
    let recent := db.reports.filter (fun r => decide (since < (r.timestamp : Int)))
    let ips := dedupKeepFirst (recent.map (fun r => r.ip))
    let rows := ips.map (fun i =>
      let rs := recent.filter (fun r => r.ip == i)
      { ip := i
        count := rs.length
        last_report := (rs.map (fun r => r.timestamp)).foldl Nat.max 0 : DashRow })
    (Resp.dash
      { reports := sortByCountDesc rows
        blacklistedIPs := sortByTimestampDesc db.blacklist
        settings := db.settings }, db)
  else (authErrorResp, db)

/-- The valid inputs of `POST /admin/set-status`:
`['up', 'down', 'auto'].includes(status)` (false when the field is absent). -/
def statusInputValid (status : Option String) : Bool :=
  match status with
  | some s => ["up", "down", "auto"].contains s
  | none => false

/-- Handler of `POST /admin/set-status` (behind `requireAuth`): reject any input
outside `{up, down, auto}` with 400; else
`UPDATE settings SET value = ? WHERE key = 'force_status'` and succeed. -/
def adminSetStatus (db : DB) (sess : Option Bool) (status : Option String) :
    Resp × DB :=
  if requireAuth sess then
    if !statusInputValid status then
      (Resp.error 400 "Invalid status. Must be up, down, or auto", db)
    else
      match status with
      | some s =>
          (Resp.success, { db with settings := updateRows db.settings "force_status" s })
      | none => (Resp.error 400 "Invalid status. Must be up, down, or auto", db)
  else (authErrorResp, db)

/-- Handler of `POST /admin/maintenance` (behind `requireAuth`):
`UPDATE settings SET value = enabled ? 'true' : 'false' WHERE key =
'maintenance_mode'`; always succeeds. -/
def adminMaintenance (db : DB) (sess : Option Bool) (enabled : Bool) :
    Resp × DB :=
  if requireAuth sess then
    (Resp.success,
     { db with settings := updateRows db.settings "maintenance_mode"
                 (if enabled then "true" else "false") })
  else (authErrorResp, db)

/-- The two failure classes of the blacklist `INSERT`: a
`UNIQUE constraint failed` error on the `ip` column, or any other
storage error. -/
inductive DbErr where
  | uniqueViolation
  | other
deriving Repr, DecidableEq

/-- The statement `INSERT INTO blacklisted_ips (ip, timestamp, reason) VALUES (?, ?, ?)`
against the `ip TEXT UNIQUE` constraint: fails with a uniqueness violation
exactly when the address is already present; `fault` injects the
environment's "any other storage failure" possibility. -/
def insertBlacklistRow (bl : List BlacklistEntry) (e : BlacklistEntry)
    (fault : Bool) : Except DbErr (List BlacklistEntry) :=
  if bl.any (fun b => b.ip == e.ip) then Except.error DbErr.uniqueViolation
  else if fault then Except.error DbErr.other
  else Except.ok (bl ++ [e])

/-- Handler of `POST /admin/blacklist` (behind `requireAuth`): 400 when the address
is absent (JavaScript `!ip`, so the empty string counts as absent); else
insert `{ip, Date.now(), reason || 'No reason provided'}`, mapping a
uniqueness violation to 400 "IP already blacklisted" and any other
storage error to 500 "Database error". -/
def adminBlacklistAdd (db : DB) (sess : Option Bool) (ip reason : Option String)
    (now : Nat) (fault : Bool) : Resp × DB :=
  if requireAuth sess then
    match ip with
    | none => (Resp.error 400 "IP address required", db)
    | some i =>
        if i == "" then (Resp.error 400 "IP address required", db)
        else
          match insertBlacklistRow db.blacklist
              { ip := i, timestamp := now, reason := jsOrDefault reason "No reason provided" }
              fault with
          | Except.ok bl => (Resp.success, { db with blacklist := bl })
          | Except.error DbErr.uniqueViolation =>
              (Resp.error 400 "IP already blacklisted", db)
          | Except.error DbErr.other => (Resp.error 500 "Database error", db)
  else (authErrorResp, db)

/-- Handler of `DELETE /admin/blacklist/:ip` (behind `requireAuth`):
`DELETE FROM blacklisted_ips WHERE ip = ?`, then success unconditionally. -/
def adminBlacklistRemove (db : DB) (sess : Option Bool) (ip : String) :
    Resp × DB :=
  if requireAuth sess then
    (Resp.success, { db with blacklist := db.blacklist.filter (fun b => !(b.ip == ip)) })
  else (authErrorResp, db)

/-- One inbound operation of the system, public or admin, with every
input the environment chooses (session marker, request fields, wall
clock, injected storage fault). -/
inductive Op where
  | report (ip : String) (now : Nat)
  | status (now : Nat)
  | gate (path ip : String)
  | dashboard (sess : Option Bool) (now : Nat)
  | setStatus (sess : Option Bool) (status : Option String)
  | maintenance (sess : Option Bool) (enabled : Bool)
  | blacklistAdd (sess : Option Bool) (ip reason : Option String) (now : Nat) (fault : Bool)
  | blacklistRemove (sess : Option Bool) (ip : String)
deriving Repr, DecidableEq

/-- The state transition of each operation (reads leave the state as is). -/
def applyOp (db : DB) : Op → DB
  | Op.report ip now => (postReport db ip now).2
  | Op.status _ => db
  | Op.gate _ _ => db
  | Op.dashboard sess now => (adminDashboard db sess now).2
  | Op.setStatus sess status => (adminSetStatus db sess status).2
  | Op.maintenance sess enabled => (adminMaintenance db sess enabled).2
  | Op.blacklistAdd sess ip reason now fault =>
      (adminBlacklistAdd db sess ip reason now fault).2
  | Op.blacklistRemove sess ip => (adminBlacklistRemove db sess ip).2

/-- Run a sequence of operations from a state. -/
def applyOps (db : DB) (ops : List Op) : DB :=
  ops.foldl applyOp db

/-- The blacklist uniqueness invariant: each address appears in at most
one blacklist entry. -/
def blacklistNodup (db : DB) : Prop :=
  (db.blacklist.map (fun b => b.ip)).Nodup

instance (db : DB) : Decidable (blacklistNodup db) := by
  unfold blacklistNodup; infer_instance

/-! ## Helper lemmas -/

/-- The window constant evaluates to 86 400 000 ms. -/
theorem windowMs_eq : windowMs = 86400000 := by norm_num [windowMs]

/-- The recent-report query succeeds exactly when some row of the address
lies strictly inside the window. -/
theorem hasRecentReport_iff (db : DB) (ip : String) (since : Int) :
    hasRecentReport db ip since = true ↔
      ∃ r ∈ db.reports, r.ip = ip ∧ since < (r.timestamp : Int) := by
  simp [hasRecentReport]

/-! ## C1 — report submission and its rate limit -/

/-- C1: `POST /report` from address `A` at time `T` answers 429 with the
fixed message and writes nothing when some report row of `A` has timestamp
strictly greater than `T - 86400000`; otherwise it appends exactly the row
`{A, T}` and responds success. Consequently, after a success at `T`, a
second report from `A` at any time in the open interval
`(T, T + 86400000)` is rate-limited, and one at `T + 86400000 + 1`
succeeds. -/
theorem report_rate_limit_spec (db : DB) (A : String) (T : Nat) :
    ((∃ r ∈ db.reports, r.ip = A ∧ (T : Int) - 86400000 < (r.timestamp : Int)) →
      postReport db A T =
        (Resp.error 429 "You can only report once every 24 hours.", db))
  ∧ ((¬ ∃ r ∈ db.reports, r.ip = A ∧ (T : Int) - 86400000 < (r.timestamp : Int)) →
      postReport db A T =
        (Resp.success, { db with reports := db.reports ++ [{ ip := A, timestamp := T }] }))
  ∧ ((¬ ∃ r ∈ db.reports, r.ip = A ∧ (T : Int) - 86400000 < (r.timestamp : Int)) →
      (∀ T2 : Nat, T < T2 → T2 < T + 86400000 →
        (postReport { db with reports := db.reports ++ [{ ip := A, timestamp := T }] } A T2).1
          = Resp.error 429 "You can only report once every 24 hours.")
      ∧ (postReport { db with reports := db.reports ++ [{ ip := A, timestamp := T }] } A
            (T + 86400000 + 1)).1 = Resp.success) := by
  have hwin : (windowMs : Int) = 86400000 := by norm_num [windowMs]
  refine ⟨?_, ?_, ?_⟩
  · intro h
    have : hasRecentReport db A ((T : Int) - (windowMs : Int)) = true := by
      rw [hasRecentReport_iff, hwin]; exact h
    simp [postReport, this]
  · intro h
    have : hasRecentReport db A ((T : Int) - (windowMs : Int)) = false := by
      rw [Bool.eq_false_iff, Ne, hasRecentReport_iff, hwin]; exact h
    simp [postReport, this]
  · intro h
    constructor
    · intro T2 h1 h2
      have : hasRecentReport
          { db with reports := db.reports ++ [{ ip := A, timestamp := T }] } A
          ((T2 : Int) - (windowMs : Int)) = true := by
        rw [hasRecentReport_iff, hwin]
        refine ⟨{ ip := A, timestamp := T }, by simp, rfl, ?_⟩
        push_cast
        omega
      simp [postReport, this]
    · have : hasRecentReport
          { db with reports := db.reports ++ [{ ip := A, timestamp := T }] } A
          (((T + 86400000 + 1 : Nat) : Int) - (windowMs : Int)) = false := by
        rw [Bool.eq_false_iff, Ne, hasRecentReport_iff, hwin]
        rintro ⟨r, hr, hip, hts⟩
        rcases List.mem_append.mp hr with hold | hnew
        · exact h ⟨r, hold, hip, by push_cast at hts ⊢; omega⟩
        · simp at hnew
          subst hnew
          simp at hts
          omega
      push_cast at this
      simp [postReport, this]

/-- Witness for C1 at concrete inputs: the empty database accepts a first
report, and a second one from the same address 1000 ms later is
rate-limited. -/
theorem report_rate_limit_spec_witness :
    postReport emptyDB "1.2.3.4" 1000 =
      (Resp.success, { emptyDB with reports := [{ ip := "1.2.3.4", timestamp := 1000 }] })
  ∧ (postReport { emptyDB with reports := [{ ip := "1.2.3.4", timestamp := 1000 }] }
        "1.2.3.4" 2000).1
      = Resp.error 429 "You can only report once every 24 hours."
  ∧ (postReport { emptyDB with reports := [{ ip := "1.2.3.4", timestamp := 1000 }] }
        "1.2.3.4" (1000 + 86400000 + 1)).1 = Resp.success := by
  refine ⟨?_, ?_, ?_⟩
  · have := (report_rate_limit_spec emptyDB "1.2.3.4" 1000).2.1 (by decide)
    simpa [emptyDB] using this
  · have := ((report_rate_limit_spec emptyDB "1.2.3.4" 1000).2.2 (by decide)).1
      2000 (by decide) (by decide)
    simpa [emptyDB] using this
  · have := ((report_rate_limit_spec emptyDB "1.2.3.4" 1000).2.2 (by decide)).2
    simpa [emptyDB] using this

/-! ## C2 — auto-mode status computation -/

/-- C2: when the `force_status` setting is `"auto"`, `GET /status` counts
exactly the report rows with timestamp strictly greater than
`now - 86400000`, answers the down-phrase precisely when that count is at
least 30 (boundary inclusive) and the up-phrase otherwise, and carries the
full qualifying row list and `forced: false`. -/
theorem status_auto_spec (db : DB) (now : Nat)
    (h : getSetting db "force_status" = some "auto") :
    (getStatus db now).count =
      (db.reports.filter (fun r => (now : Int) - 86400000 < (r.timestamp : Int))).length
  ∧ (getStatus db now).reports =
      db.reports.filter (fun r => (now : Int) - 86400000 < (r.timestamp : Int))
  ∧ ((getStatus db now).status = "Korone is probably down" ↔
      30 ≤ (getStatus db now).count)
  ∧ ((getStatus db now).status = "Korone is up" ↔ (getStatus db now).count < 30)
  ∧ (getStatus db now).forced = false := by
  have hg : getStatus db now = statusAuto db now := by
    simp [getStatus, h]
  have hwin : (windowMs : Int) = 86400000 := by norm_num [windowMs]
  rw [hg]
  unfold statusAuto
  rw [hwin]
  refine ⟨rfl, rfl, ?_, ?_, rfl⟩ <;>
    by_cases hc :
      30 ≤ (db.reports.filter (fun r => (now : Int) - 86400000 < (r.timestamp : Int))).length <;>
    simp [hc] <;> omega

/-- Witness for C2: a database in auto mode with exactly 30 qualifying
rows reports the down-phrase with count 30. -/
theorem status_auto_spec_witness :
    getSetting
      { emptyDB with
        settings := [("force_status", "auto")]
        reports := (List.range 30).map (fun i => { ip := toString i, timestamp := 500 + i }) }
      "force_status" = some "auto"
  ∧ (getStatus
      { emptyDB with
        settings := [("force_status", "auto")]
        reports := (List.range 30).map (fun i => { ip := toString i, timestamp := 500 + i }) }
      1000).status = "Korone is probably down"
  ∧ (getStatus
      { emptyDB with
        settings := [("force_status", "auto")]
        reports := (List.range 30).map (fun i => { ip := toString i, timestamp := 500 + i }) }
      1000).count = 30 := by
  refine ⟨by decide, ?_, ?_⟩
  · exact (status_auto_spec _ 1000 (by decide)).2.2.1.mpr
      (by rw [(status_auto_spec _ 1000 (by decide)).1]; decide)
  · rw [(status_auto_spec _ 1000 (by decide)).1]; decide

/-! ## C3 — forced status override -/

/-- C3: whenever the `force_status` setting holds a value other than
`"auto"`, `GET /status` answers the up-phrase exactly for value `"up"`
and the down-phrase for every other value, with `count: 0`,
`reports: []` and `forced: true`, independently of the report table. -/
theorem status_forced_spec (db : DB) (now : Nat) (v : String)
    (hv : getSetting db "force_status" = some v) (hne : v ≠ "auto") :
    getStatus db now =
      { status := if v = "up" then "Korone is up" else "Korone is probably down"
        count := 0
        reports := []
        forced := true } := by
  simp [getStatus, hv, forcedPhrase, hne]

/-- Witness for C3: with `force_status = "down"` and a recent report row
present, the response is the forced down-phrase with zero count. -/
theorem status_forced_spec_witness :
    getStatus
      { emptyDB with
        settings := [("force_status", "down")]
        reports := [{ ip := "a", timestamp := 999 }] } 1000 =
      { status := "Korone is probably down", count := 0, reports := [], forced := true } := by
  have := status_forced_spec
    { emptyDB with
      settings := [("force_status", "down")]
      reports := [{ ip := "a", timestamp := 999 }] } 1000 "down" (by decide) (by decide)
  simpa using this

/-! ## C4 — the Access Gate -/

/-- C4: for every request, the gate (which performs no writes: its type
consumes the state and produces none) serves the maintenance page exactly
when the path is neither an admin path nor a static-asset path and the
`maintenance_mode` setting is `"true"`; failing that, it answers 403
exactly when the resolved address is blacklisted and the path is not an
admin path (static-asset paths included); admin paths always pass. The
iff-characterisations fix the evaluation order: maintenance strictly
before blacklist. -/
theorem access_gate_spec (db : DB) (path ip : String) :
    (accessGate db path ip = GateResult.maintenance ↔
      (isAdminPath path = false ∧ isStaticAssetPath path = false ∧
       getSetting db "maintenance_mode" = some "true"))
  ∧ (accessGate db path ip = GateResult.denied ↔
      (¬ (isAdminPath path = false ∧ isStaticAssetPath path = false ∧
          getSetting db "maintenance_mode" = some "true")
       ∧ (∃ b ∈ db.blacklist, b.ip = ip) ∧ isAdminPath path = false))
  ∧ (isAdminPath path = true → accessGate db path ip = GateResult.pass) := by
  unfold accessGate
  by_cases hbl : ∃ b ∈ db.blacklist, b.ip = ip
  case pos =>
    have hb : db.blacklist.any (fun b => b.ip == ip) = true := by simpa using hbl
    rcases hm : getSetting db "maintenance_mode" with _ | v
    · cases hadm : isAdminPath path <;> cases hst : isStaticAssetPath path <;> simp_all
    · by_cases hv : v = "true" <;> cases hadm : isAdminPath path <;>
        cases hst : isStaticAssetPath path <;> simp_all
  case neg =>
    have hb : db.blacklist.any (fun b => b.ip == ip) = false := by
      rw [Bool.eq_false_iff, Ne]
      intro hc
      exact hbl (by simpa using hc)
    rcases hm : getSetting db "maintenance_mode" with _ | v
    · cases hadm : isAdminPath path <;> cases hst : isStaticAssetPath path <;> simp_all <;>
        (rw [if_neg (by rintro ⟨x, hx, he⟩; exact hbl x hx he)]; simp)
    · by_cases hv : v = "true" <;> cases hadm : isAdminPath path <;>
        cases hst : isStaticAssetPath path <;> simp_all <;>
        (rw [if_neg (by rintro ⟨x, hx, he⟩; exact hbl x hx he)]; simp)

/-- Witness for C4: an admin path passes the gate even when the client is
blacklisted and maintenance mode is on. -/
theorem access_gate_spec_witness :
    accessGate
      { emptyDB with
        settings := [("maintenance_mode", "true")]
        blacklist := [{ ip := "6.6.6.6", timestamp := 0, reason := "abuse" }] }
      "/admin/login" "6.6.6.6" = GateResult.pass := by
  exact (access_gate_spec
    { emptyDB with
      settings := [("maintenance_mode", "true")]
      blacklist := [{ ip := "6.6.6.6", timestamp := 0, reason := "abuse" }] }
    "/admin/login" "6.6.6.6").2.2 (by decide)

/-! ## C5 — admin endpoints without a session -/

/-- C5: every endpoint behind the session gate — dashboard read,
set-status, maintenance toggle, blacklist add, blacklist remove — answers
401 "Authentication required" and leaves the whole database state
unchanged whenever the session check fails. -/
theorem admin_unauth_spec (db : DB) (sess : Option Bool)
    (h : requireAuth sess = false) :
    (∀ now, adminDashboard db sess now = (Resp.error 401 "Authentication required", db))
  ∧ (∀ status, adminSetStatus db sess status =
      (Resp.error 401 "Authentication required", db))
  ∧ (∀ enabled, adminMaintenance db sess enabled =
      (Resp.error 401 "Authentication required", db))
  ∧ (∀ ip reason now fault, adminBlacklistAdd db sess ip reason now fault =
      (Resp.error 401 "Authentication required", db))
  ∧ (∀ ip, adminBlacklistRemove db sess ip =
      (Resp.error 401 "Authentication required", db)) := by
  refine ⟨?_, ?_, ?_, ?_, ?_⟩ <;>
    intros <;>
    simp [adminDashboard, adminSetStatus, adminMaintenance, adminBlacklistAdd,
      adminBlacklistRemove, authErrorResp, h]

/-- Witness for C5: with no session at all and a non-trivial state, the
set-status endpoint answers 401 and the state survives untouched. -/
theorem admin_unauth_spec_witness :
    adminSetStatus (startup emptyDB) none (some "down") =
      (Resp.error 401 "Authentication required", startup emptyDB) := by
  exact (admin_unauth_spec (startup emptyDB) none (by decide)).2.1 (some "down")

/-! ## C6 — set-status validation and effect -/

/-- Reading with `lookupRows` after `updateRows` at a key the store holds yields the
new value. -/
theorem lookupRows_updateRows_self (l : List (String × String)) (k v : String)
    (h : (lookupRows l k).isSome = true) :
    lookupRows (updateRows l k v) k = some v := by
  induction l with
  | nil => simp [lookupRows] at h
  | cons p t ih =>
      by_cases hk : p.1 = k
      · simp [lookupRows, updateRows, hk]
      · simp only [lookupRows, updateRows, List.map_cons] at h ⊢
        rw [if_neg (by simp [hk])]
        rw [List.find?_cons_of_neg _ (by simp [hk])]
        rw [List.find?_cons_of_neg _ (by simp [hk])] at h
        exact ih h

/-- A seeded key is present in the settings rows. -/
theorem lookupRows_seedRow_self (l : List (String × String)) (k v : String) :
    (lookupRows (seedRow l k v) k).isSome = true := by
  unfold seedRow lookupRows
  by_cases h : l.any (fun p => p.1 == k)
  · rw [if_pos h]
    obtain ⟨x, hx, hpx⟩ := List.any_eq_true.mp h
    have hfs : (List.find? (fun p => p.1 == k) l).isSome = true :=
      List.find?_isSome.mpr ⟨x, hx, hpx⟩
    cases hf : List.find? (fun p => p.1 == k) l with
    | none => rw [hf] at hfs; simp at hfs
    | some y => simp [hf]
  · rw [if_neg h, List.find?_append]
    have hnone : List.find? (fun p => p.1 == k) l = none := by
      rw [List.find?_eq_none]
      intro x hx hpx
      exact h (List.any_eq_true.mpr ⟨x, hx, hpx⟩)
    rw [hnone]
    simp

/-- C6: with an authenticated session, `POST /admin/set-status` rejects
any input outside `{"up","down","auto"}` — a missing field included —
with 400 and an unchanged database; on a valid input it responds success
and the `force_status` setting afterwards equals the supplied value
(the store holds the key from startup seeding, which the last conjunct
shows). -/
theorem set_status_spec (db : DB) (sess : Option Bool)
    (hauth : requireAuth sess = true) :
    (∀ status : Option String,
      (∀ s, status = some s → s ≠ "up" ∧ s ≠ "down" ∧ s ≠ "auto") →
      adminSetStatus db sess status =
        (Resp.error 400 "Invalid status. Must be up, down, or auto", db))
  ∧ (∀ s : String, (s = "up" ∨ s = "down" ∨ s = "auto") →
      (getSetting db "force_status").isSome = true →
      (adminSetStatus db sess (some s)).1 = Resp.success
      ∧ getSetting (adminSetStatus db sess (some s)).2 "force_status" = some s
      ∧ (adminSetStatus db sess (some s)).2.reports = db.reports
      ∧ (adminSetStatus db sess (some s)).2.blacklist = db.blacklist)
  ∧ (∀ db0 : DB, (getSetting (startup db0) "force_status").isSome = true) := by
  refine ⟨?_, ?_, ?_⟩
  · rintro (_ | s) hinv
    · simp [adminSetStatus, hauth, statusInputValid]
    · obtain ⟨h1, h2, h3⟩ := hinv s rfl
      simp [adminSetStatus, hauth, statusInputValid, h1, h2, h3]
  · intro s hs hsome
    have hvalid : statusInputValid (some s) = true := by
      rcases hs with h | h | h <;> simp [statusInputValid, h]
    refine ⟨by simp [adminSetStatus, hauth, hvalid], ?_, ?_, ?_⟩ <;>
      simp [adminSetStatus, hauth, hvalid, getSetting] <;>
      exact lookupRows_updateRows_self db.settings "force_status" s hsome
  · intro db0
    exact lookupRows_seedRow_self _ "force_status" "auto"

/-- Witness for C6: on the seeded store, setting `"down"` succeeds and is
observable, and an invalid input is rejected with 400. -/
theorem set_status_spec_witness :
    (adminSetStatus (startup emptyDB) (some true) (some "down")).1 = Resp.success
  ∧ getSetting (adminSetStatus (startup emptyDB) (some true) (some "down")).2
      "force_status" = some "down"
  ∧ adminSetStatus (startup emptyDB) (some true) (some "sideways") =
      (Resp.error 400 "Invalid status. Must be up, down, or auto", startup emptyDB) := by
  have h := set_status_spec (startup emptyDB) (some true) (by decide)
  refine ⟨(h.2.1 "down" (by decide) (by decide)).1,
    (h.2.1 "down" (by decide) (by decide)).2.1,
    h.1 (some "sideways") ?_⟩
  rintro s hs
  rw [Option.some_inj] at hs
  subst hs
  refine ⟨by decide, by decide, by decide⟩

/-! ## C7 — blacklist add -/

/-- C7: with an authenticated session, `POST /admin/blacklist` answers
400 without inserting when the address is missing; 400
"IP already blacklisted" with the state unchanged when the address is
already present; a generic 500 "Database error" on any other storage
failure; and otherwise inserts the single entry of the address, the
current time and the reason — defaulted to "No reason provided" when
absent — and responds success. -/
theorem blacklist_add_spec (db : DB) (sess : Option Bool)
    (hauth : requireAuth sess = true) :
    (∀ reason now fault, adminBlacklistAdd db sess none reason now fault =
      (Resp.error 400 "IP address required", db))
  ∧ (∀ i reason now fault, i ≠ "" → (∃ b ∈ db.blacklist, b.ip = i) →
      adminBlacklistAdd db sess (some i) reason now fault =
        (Resp.error 400 "IP already blacklisted", db))
  ∧ (∀ i reason now, i ≠ "" → (¬ ∃ b ∈ db.blacklist, b.ip = i) →
      adminBlacklistAdd db sess (some i) reason now true =
        (Resp.error 500 "Database error", db))
  ∧ (∀ i now, i ≠ "" → (¬ ∃ b ∈ db.blacklist, b.ip = i) →
      adminBlacklistAdd db sess (some i) none now false =
        (Resp.success,
         { db with blacklist := db.blacklist ++
             [{ ip := i, timestamp := now, reason := "No reason provided" }] }))
  ∧ (∀ i r now, i ≠ "" → r ≠ "" → (¬ ∃ b ∈ db.blacklist, b.ip = i) →
      adminBlacklistAdd db sess (some i) (some r) now false =
        (Resp.success,
         { db with blacklist := db.blacklist ++
             [{ ip := i, timestamp := now, reason := r }] })) := by
  refine ⟨?_, ?_, ?_, ?_, ?_⟩
  · intro reason now fault
    simp [adminBlacklistAdd, hauth]
  · intro i reason now fault hne hmem
    have hb : db.blacklist.any (fun b => b.ip == i) = true := by simpa using hmem
    simp [adminBlacklistAdd, hauth, hne, insertBlacklistRow, hb]
  · intro i reason now hne hmem
    have hb : db.blacklist.any (fun b => b.ip == i) = false := by
      rw [Bool.eq_false_iff, Ne]
      intro hc
      exact hmem (by simpa using hc)
    simp [adminBlacklistAdd, hauth, hne, insertBlacklistRow, hb]
  · intro i now hne hmem
    have hb : db.blacklist.any (fun b => b.ip == i) = false := by
      rw [Bool.eq_false_iff, Ne]
      intro hc
      exact hmem (by simpa using hc)
    simp [adminBlacklistAdd, hauth, hne, insertBlacklistRow, hb, jsOrDefault]
  · intro i r now hne hrne hmem
    have hb : db.blacklist.any (fun b => b.ip == i) = false := by
      rw [Bool.eq_false_iff, Ne]
      intro hc
      exact hmem (by simpa using hc)
    simp [adminBlacklistAdd, hauth, hne, hrne, insertBlacklistRow, hb, jsOrDefault]

/-- Witness for C7: on a database already holding 9.9.9.9, adding it
again is the 400 conflict, adding a fresh address with no reason inserts
the defaulted entry, and a missing address is the plain 400. -/
theorem blacklist_add_spec_witness :
    adminBlacklistAdd
      { emptyDB with blacklist := [{ ip := "9.9.9.9", timestamp := 1, reason := "r" }] }
      (some true) (some "9.9.9.9") none 2 false =
      (Resp.error 400 "IP already blacklisted",
       { emptyDB with blacklist := [{ ip := "9.9.9.9", timestamp := 1, reason := "r" }] })
  ∧ adminBlacklistAdd
      { emptyDB with blacklist := [{ ip := "9.9.9.9", timestamp := 1, reason := "r" }] }
      (some true) (some "8.8.8.8") none 2 false =
      (Resp.success,
       { emptyDB with blacklist :=
           [{ ip := "9.9.9.9", timestamp := 1, reason := "r" },
            { ip := "8.8.8.8", timestamp := 2, reason := "No reason provided" }] })
  ∧ adminBlacklistAdd
      { emptyDB with blacklist := [{ ip := "9.9.9.9", timestamp := 1, reason := "r" }] }
      (some true) (some "8.8.8.8") none 2 true =
      (Resp.error 500 "Database error",
       { emptyDB with blacklist := [{ ip := "9.9.9.9", timestamp := 1, reason := "r" }] })
  ∧ adminBlacklistAdd
      { emptyDB with blacklist := [{ ip := "9.9.9.9", timestamp := 1, reason := "r" }] }
      (some true) none (some "why") 2 false =
      (Resp.error 400 "IP address required",
       { emptyDB with blacklist := [{ ip := "9.9.9.9", timestamp := 1, reason := "r" }] }) := by
  have h := blacklist_add_spec
    { emptyDB with blacklist := [{ ip := "9.9.9.9", timestamp := 1, reason := "r" }] }
    (some true) (by decide)
  refine ⟨h.2.1 "9.9.9.9" none 2 false (by decide) (by decide), ?_,
    h.2.2.1 "8.8.8.8" none 2 (by decide) (by decide),
    h.1 (some "why") 2 false⟩
  have h4 := h.2.2.2.1 "8.8.8.8" 2 (by decide) (by decide)
  simpa [emptyDB] using h4

/-! ## C9 — blacklist remove -/

/-- Filtering is idempotent. -/
theorem filter_self_idem {α : Type} (p : α → Bool) (l : List α) :
    (l.filter p).filter p = l.filter p := by
  induction l with
  | nil => rfl
  | cons a t ih =>
      by_cases h : p a <;> simp [List.filter_cons, h, ih]

/-- C9: with an authenticated session, `DELETE /admin/blacklist/:ip`
always responds success — present or not; afterwards the address is
absent from the blacklist; running the removal twice ends in the same
state as running it once; and the other tables are untouched. -/
theorem blacklist_remove_spec (db : DB) (sess : Option Bool) (ip : String)
    (hauth : requireAuth sess = true) :
    (adminBlacklistRemove db sess ip).1 = Resp.success
  ∧ (∀ b ∈ (adminBlacklistRemove db sess ip).2.blacklist, b.ip ≠ ip)
  ∧ (adminBlacklistRemove (adminBlacklistRemove db sess ip).2 sess ip).2 =
      (adminBlacklistRemove db sess ip).2
  ∧ (adminBlacklistRemove db sess ip).2.reports = db.reports
  ∧ (adminBlacklistRemove db sess ip).2.settings = db.settings := by
  refine ⟨by simp [adminBlacklistRemove, hauth], ?_, ?_,
    by simp [adminBlacklistRemove, hauth], by simp [adminBlacklistRemove, hauth]⟩
  · intro b hb
    simp [adminBlacklistRemove, hauth] at hb
    exact hb.2
  · simp [adminBlacklistRemove, hauth, filter_self_idem]

/-- Witness for C9: removing an address absent from a one-entry blacklist
succeeds and leaves the other entry; the double removal matches the
single one. -/
theorem blacklist_remove_spec_witness :
    (adminBlacklistRemove
      { emptyDB with blacklist := [{ ip := "9.9.9.9", timestamp := 1, reason := "r" }] }
      (some true) "7.7.7.7").1 = Resp.success
  ∧ (adminBlacklistRemove
      (adminBlacklistRemove
        { emptyDB with blacklist := [{ ip := "9.9.9.9", timestamp := 1, reason := "r" }] }
        (some true) "7.7.7.7").2 (some true) "7.7.7.7").2 =
      (adminBlacklistRemove
        { emptyDB with blacklist := [{ ip := "9.9.9.9", timestamp := 1, reason := "r" }] }
        (some true) "7.7.7.7").2 := by
  have h := blacklist_remove_spec
    { emptyDB with blacklist := [{ ip := "9.9.9.9", timestamp := 1, reason := "r" }] }
    (some true) "7.7.7.7" (by decide)
  exact ⟨h.1, h.2.2.1⟩

/-! ## C8 — blacklist uniqueness is an invariant -/

/-- A successful blacklist insertion preserves address uniqueness, since
it demands the address to be absent. -/
theorem insertBlacklistRow_nodup (bl : List BlacklistEntry) (e : BlacklistEntry)
    (fault : Bool) (bl2 : List BlacklistEntry)
    (h : (bl.map (fun b => b.ip)).Nodup)
    (hok : insertBlacklistRow bl e fault = Except.ok bl2) :
    (bl2.map (fun b => b.ip)).Nodup := by
  unfold insertBlacklistRow at hok
  by_cases hany : bl.any (fun b => b.ip == e.ip)
  · rw [if_pos hany] at hok
    exact absurd hok (by simp)
  · rw [if_neg hany] at hok
    cases fault with
    | true => exact absurd hok (by simp)
    | false =>
        rw [if_neg (by simp)] at hok
        obtain rfl : bl ++ [e] = bl2 := by injection hok
        rw [List.map_append, List.nodup_append]
        refine ⟨h, by simp, ?_⟩
        intro a ha
        simp only [List.map_cons, List.map_nil, List.mem_singleton]
        intro hae
        simp only [List.mem_map] at ha
        obtain ⟨b, hb, hba⟩ := ha
        exact hany (List.any_eq_true.mpr ⟨b, hb, by simp [hba, hae]⟩)

/-- Every single operation preserves blacklist address uniqueness. -/
theorem applyOp_preserves_nodup (db : DB) (op : Op)
    (h : blacklistNodup db) : blacklistNodup (applyOp db op) := by
  cases op with
  | report ip now =>
      have : (postReport db ip now).2.blacklist = db.blacklist := by
        simp only [postReport]
        split <;> rfl
      unfold blacklistNodup at h ⊢
      rw [applyOp, this]
      exact h
  | status now => exact h
  | gate path ip => exact h
  | dashboard sess now =>
      have : (adminDashboard db sess now).2 = db := by
        unfold adminDashboard
        split <;> rfl
      rw [applyOp, this]
      exact h
  | setStatus sess status =>
      have : (adminSetStatus db sess status).2.blacklist = db.blacklist := by
        unfold adminSetStatus
        rcases status with _ | s <;> split <;> (try split) <;> rfl
      unfold blacklistNodup at h ⊢
      rw [applyOp, this]
      exact h
  | maintenance sess enabled =>
      have : (adminMaintenance db sess enabled).2.blacklist = db.blacklist := by
        unfold adminMaintenance
        split <;> rfl
      unfold blacklistNodup at h ⊢
      rw [applyOp, this]
      exact h
  | blacklistAdd sess ip reason now fault =>
      unfold blacklistNodup at h ⊢
      rw [applyOp]
      unfold adminBlacklistAdd
      rcases hr : requireAuth sess with _ | _
      · simpa [hr] using h
      · rcases ip with _ | i
        · simpa [hr] using h
        · by_cases hi : i = ""
          · simp only [hr, if_pos rfl, hi]
            simpa using h
          · simp only [hr, if_true]
            rw [if_neg (by simpa using hi)]
            rcases hins : insertBlacklistRow db.blacklist
                { ip := i, timestamp := now,
                  reason := jsOrDefault reason "No reason provided" } fault with err | bl2
            · cases err <;> simpa using h
            · simpa using insertBlacklistRow_nodup db.blacklist _ fault bl2 h hins
  | blacklistRemove sess ip =>
      unfold blacklistNodup at h ⊢
      rw [applyOp]
      unfold adminBlacklistRemove
      split
      · simp only
        refine List.Nodup.sublist (List.Sublist.map _ ?_) h
        exact List.filter_sublist db.blacklist
      · exact h

/-- Sequences of operations preserve blacklist address uniqueness. -/
theorem applyOps_preserves_nodup (db : DB) (ops : List Op)
    (h : blacklistNodup db) : blacklistNodup (applyOps db ops) := by
  induction ops generalizing db with
  | nil => exact h
  | cons op t ih =>
      rw [applyOps, List.foldl_cons]
      exact ih (applyOp db op) (applyOp_preserves_nodup db op h)

/-- C8: starting from the post-startup state over any persisted state
whose blacklist already satisfies the uniqueness constraint, no sequence
of public or admin operations can produce two blacklist entries with the
same address. -/
theorem blacklist_unique_invariant (db : DB) (ops : List Op)
    (h : blacklistNodup db) : blacklistNodup (applyOps (startup db) ops) :=
  applyOps_preserves_nodup (startup db) ops h

/-- Witness for C8: from a seeded empty state, a run that adds an
address, retries it (rejected), removes it and adds it again ends with
no duplicated address. -/
theorem blacklist_unique_invariant_witness :
    blacklistNodup (applyOps (startup emptyDB)
      [Op.blacklistAdd (some true) (some "9.9.9.9") none 1 false,
       Op.blacklistAdd (some true) (some "9.9.9.9") (some "again") 2 false,
       Op.report "9.9.9.9" 3,
       Op.blacklistRemove (some true) "9.9.9.9",
       Op.blacklistAdd (some true) (some "9.9.9.9") none 4 false]) :=
  blacklist_unique_invariant emptyDB _ (by decide)

/-! ## C10 — readers fall back when a settings row is missing -/

/-- C10: when a recognized settings row is absent, the readers default
instead of failing: the Access Gate behaves exactly as if
`maintenance_mode` were `"false"` — in particular it never serves the
maintenance page — and `GET /status` behaves exactly as if `force_status`
were `"auto"`, running the normal window computation over the ledger. -/
theorem missing_settings_defaults (db : DB) (path ip : String) (now : Nat)
    (hm : getSetting db "maintenance_mode" = none)
    (hf : getSetting db "force_status" = none) :
    accessGate db path ip =
      accessGate { db with settings := ("maintenance_mode", "false") :: db.settings }
        path ip
  ∧ accessGate db path ip ≠ GateResult.maintenance
  ∧ getStatus db now = statusAuto db now
  ∧ getStatus db now =
      getStatus { db with settings := ("force_status", "auto") :: db.settings } now := by
  have h1 : getSetting { db with settings := ("maintenance_mode", "false") :: db.settings }
      "maintenance_mode" = some "false" := by
    simp [getSetting, lookupRows]
  have h2 : getSetting { db with settings := ("force_status", "auto") :: db.settings }
      "force_status" = some "auto" := by
    simp [getSetting, lookupRows]
  refine ⟨?_, ?_, ?_, ?_⟩
  · simp [accessGate, hm, h1]
  · simp only [accessGate, hm]
    split <;> (try split) <;> simp_all <;> split <;> simp_all
  · simp [getStatus, hf]
  · rw [getStatus, hf, getStatus, h2]
    simp [statusAuto]

/-- Witness for C10: with an empty settings table and a recent report,
the gate passes a plain path and the status endpoint counts the ledger. -/
theorem missing_settings_defaults_witness :
    accessGate { emptyDB with reports := [{ ip := "a", timestamp := 999 }] } "/index.html" "a" =
      accessGate { emptyDB with
        reports := [{ ip := "a", timestamp := 999 }]
        settings := [("maintenance_mode", "false")] } "/index.html" "a"
  ∧ getStatus { emptyDB with reports := [{ ip := "a", timestamp := 999 }] } 1000 =
      statusAuto { emptyDB with reports := [{ ip := "a", timestamp := 999 }] } 1000 := by
  have h := missing_settings_defaults
    { emptyDB with reports := [{ ip := "a", timestamp := 999 }] }
    "/index.html" "a" 1000 (by decide) (by decide)
  exact ⟨h.1, h.2.2.1⟩

end IsKoroneDown
